import Mathlib

/-!
Verification of the ScrapCord gateway client: a shallow embedding of the
state-synchronization engine (src/scrapcord/state.py, guild.py, member.py,
role.py, user.py) and of the gateway connection loop
(src/scrapcord/gateway.py, core.py), together with theorems settling the
specified properties of the event handlers, the entity cache and the
connection loop.

Payloads are JSON values; dictionary access follows Python semantics
(raising item access versus defaulting get), and handler failures are
modelled as Python exceptions carried in an error component.
-/

/-- JSON values, the payloads carried by gateway frames. -/
inductive J where
  | null
  | jb (b : Bool)
  | ji (n : Int)
  | js (s : String)
  | ja (xs : List J)
  | jo (kvs : List (String × J))
  deriving Inhabited

/-- Python exceptions that the embedded code can raise. -/
inductive PyErr where
  | keyError (k : String)
  | typeError
  | valueError
  | nameError (n : String)
  | runtimeError
  deriving DecidableEq, Repr

/-- Python d.get(k): None when the key is missing. Callers in the source
only invoke get on dict payloads; a non-dict value yields none here. -/
def J.get (d : J) (k : String) : Option J :=
  match d with
  | .jo kvs => kvs.lookup k
  | _ => none

/-- Python d.get(k, default). -/
def J.getD (d : J) (k : String) (v : J) : J :=
  (d.get k).getD v

/-- Python d[k]: raises KeyError when missing, TypeError when d is not
subscriptable by a string key (e.g. None[k]). -/
def J.item (d : J) (k : String) : Except PyErr J :=
  match d with
  | .jo kvs =>
    match kvs.lookup k with
    | some v => .ok v
    | none => .error (.keyError k)
  | _ => .error .typeError

/-- Python truthiness of a JSON value. -/
def J.truthy : J → Bool
  | .null => false
  | .jb b => b
  | .ji n => n != 0
  | .js s => s ≠ ""
  | .ja xs => !xs.isEmpty
  | .jo kvs => !kvs.isEmpty

/-- Truthiness of an optional value (a Python variable that may hold None). -/
def truthyOpt : Option J → Bool
  | none => false
  | some v => v.truthy

/-- Python int(x) on a JSON scalar: ints pass through, digit strings parse,
bools coerce, anything else raises. -/
def pyInt : J → Except PyErr Int
  | .ji n => .ok n
  | .js s => match s.toInt? with
    | some n => .ok n
    | none => .error .valueError
  | .jb b => .ok (if b then 1 else 0)
  | _ => .error .typeError

/-- utils._get_snowflake: int(data[key]) with KeyError, TypeError and
ValueError all caught to None. -/
def get_snowflake (d : J) (k : String) : Option Int :=
  ((d.item k).bind pyInt).toOption

/-- An insertion-ordered mapping with Int keys, the model of a Python dict
as used for the entity caches (users, guilds, members, roles). -/
abbrev Dict (α : Type) := List (Int × α)

/-- Python d[k] = v on a dict: an existing key keeps its position and has
its value replaced, a new key is appended at the end. -/
def dinsert {α : Type} (k : Int) (v : α) : Dict α → Dict α
  | [] => [(k, v)]
  | (k', v') :: rest =>
    if k' = k then (k, v) :: rest else (k', v') :: dinsert k v rest

/-- Python d.get(k) on a dict. -/
def dlookup {α : Type} (k : Int) : Dict α → Option α
  | [] => none
  | (k', v') :: rest => if k' = k then some v' else dlookup k rest

/-- Python d.pop(k, None): drops the entry when present. -/
def dpop {α : Type} (k : Int) : Dict α → Dict α
  | [] => []
  | (k', v') :: rest => if k' = k then rest else (k', v') :: dpop k rest

/-- Python k in d on a dict. -/
def dmember {α : Type} (k : Int) (m : Dict α) : Bool :=
  (dlookup k m).isSome

theorem dlookup_dinsert_self {α : Type} (k : Int) (v : α) (m : Dict α) :
    dlookup k (dinsert k v m) = some v := by
  induction m with
  | nil => simp [dinsert, dlookup]
  | cons hd tl ih =>
    obtain ⟨k', v'⟩ := hd
    by_cases h : k' = k <;> simp [dinsert, dlookup, h, ih]

theorem dinsert_idem {α : Type} (k : Int) (v : α) (m : Dict α) :
    dinsert k v (dinsert k v m) = dinsert k v m := by
  induction m with
  | nil => simp [dinsert]
  | cons hd tl ih =>
    obtain ⟨k', v'⟩ := hd
    by_cases h : k' = k <;> simp [dinsert, h, ih]

theorem dinsert_self_of_dlookup {α : Type} {k : Int} {v : α} {m : Dict α}
    (h : dlookup k m = some v) : dinsert k v m = m := by
  induction m with
  | nil => simp [dlookup] at h
  | cons hd tl ih =>
    obtain ⟨k', v'⟩ := hd
    by_cases hk : k' = k
    · simp [dlookup, hk] at h
      simp [dinsert, hk, h]
    · simp [dlookup, hk] at h
      simp [dinsert, hk, ih h]

theorem dpop_of_dlookup_none {α : Type} {k : Int} {m : Dict α}
    (h : dlookup k m = none) : dpop k m = m := by
  induction m with
  | nil => rfl
  | cons hd tl ih =>
    obtain ⟨k', v'⟩ := hd
    by_cases hk : k' = k
    · simp [dlookup, hk] at h
    · simp [dlookup, hk] at h
      simp [dpop, hk, ih h]

/-- A cached user (user.py BaseUser._from_data): username, id and
discriminator are raising accesses, the rest default via get. -/
structure User where
  username : J
  id : Int
  discriminator : J
  bot : J
  system : J
  avatar : Option J
  banner : Option J
  accent_colour : Option J
  public_flags : J
  deriving Inhabited

/-- User(data, state): BaseUser._from_data field extraction. -/
def parseUser (data : J) : Except PyErr User :=
  match data.item "username" with
  | .error e => .error e
  | .ok username =>
    match (data.item "id").bind pyInt with
    | .error e => .error e
    | .ok id =>
      match data.item "discriminator" with
      | .error e => .error e
      | .ok discriminator =>
        .ok {
          username := username
          id := id
          discriminator := discriminator
          bot := data.getD "bot" (.jb false)
          system := data.getD "system" (.jb false)
          avatar := data.get "avatar"
          banner := data.get "banner"
          accent_colour := data.get "accent_color"
          public_flags := data.getD "public_flags" (.ji 0)
        }

/-- The connected client user (user.py ClientUser._from_data): the base
fields plus verified, locale and mfa_enabled. -/
structure ClientUser where
  base : User
  verified : J
  locale : Option J
  mfa_enabled : J

/-- ClientUser(data, state). -/
def parseClientUser (data : J) : Except PyErr ClientUser :=
  match parseUser data with
  | .error e => .error e
  | .ok base =>
    .ok {
      base := base
      verified := data.getD "verified" (.jb false)
      locale := data.get "locale"
      mfa_enabled := data.getD "mfa_enabled" (.jb false)
    }

/-- RoleTags (role.py): all fields are defaulting accesses, so construction
never raises; a missing premium_subscriber key is the MISSING sentinel. -/
structure RoleTags where
  bot_id : Option Int
  integration_id : Option Int
  premium_subscriber : Option J
  deriving Inhabited

/-- RoleTags(data). -/
def parseRoleTags (data : J) : RoleTags :=
  { bot_id := get_snowflake data "bot_id"
    integration_id := get_snowflake data "integration_id"
    premium_subscriber := data.get "premium_subscriber" }

/-- A cached role (role.py Role._from_data): id and position are raising
int conversions, name is a raising access, the rest default. -/
structure Role where
  id : Int
  name : J
  hoist : J
  position : Int
  managed : J
  mentionable : J
  unicode_emoji : Option J
  color : J
  tags : RoleTags
  icon : Option J
  deriving Inhabited

/-- Role(data, guild): Role._from_data field extraction. Called with None
by State.handle_guild_role_update when the role id is unknown, in which
case the first subscript raises TypeError. -/
def parseRole (data : J) : Except PyErr Role :=
  match (data.item "id").bind pyInt with
  | .error e => .error e
  | .ok id =>
    match data.item "name" with
    | .error e => .error e
    | .ok name =>
      match (data.item "position").bind pyInt with
      | .error e => .error e
      | .ok position =>
        .ok {
          id := id
          name := name
          hoist := data.getD "hoist" (.jb false)
          position := position
          managed := data.getD "managed" (.jb false)
          mentionable := data.getD "mentionable" (.jb false)
          unicode_emoji := data.get "unicode_emoji"
          color := data.getD "color" (.ji 0)
          tags := parseRoleTags (data.getD "tags" (.jo []))
          icon := data.get "icon"
        }

/-- A cached guild member (member.py Member._from_data): the embedded user
sub-payload is a raising access and is parsed as a User. -/
structure Member where
  user : User
  nick : Option J
  deaf : J
  mute : J
  pending : J
  joined_at : Option J
  roles : J
  premium_since : Option J
  avatar : Option J
  permissions : Option J
  deriving Inhabited

/-- Member(data, guild, state). -/
def parseMember (data : J) : Except PyErr Member :=
  match data.item "user" with
  | .error e => .error e
  | .ok userJ =>
    match parseUser userJ with
    | .error e => .error e
    | .ok user =>
      .ok {
        user := user
        nick := data.get "nick"
        deaf := data.getD "deaf" (.jb false)
        mute := data.getD "mute" (.jb false)
        pending := data.getD "pending" (.jb false)
        joined_at := data.get "joined_at"
        roles := data.getD "roles" (.ja [])
        premium_since := data.get "premium_since"
        avatar := data.get "avatar"
        permissions := data.get "permissions"
      }

/-- A cached guild (guild.py Guild._from_data): id and name are raising
accesses, the channel ids go through _get_snowflake, everything else
defaults; members and roles are nested insertion-ordered mappings. -/
structure Guild where
  id : Int
  name : J
  afk_timeout : J
  widget_enabled : J
  verification_level : J
  default_message_notifications : J
  explicit_content_filter : J
  features : J
  mfa_level : J
  application_id : Option J
  large : J
  unavailable : J
  member_count : Option J
  vanity_url_code : Option J
  description : Option J
  premium_tier : J
  premium_subscription_count : J
  preferred_locale : J
  approximate_member_count : Option J
  approximate_presence_count : Option J
  nsfw_level : J
  system_channel_id : Option Int
  rules_channel_id : Option Int
  public_updates_channel_id : Option Int
  afk_channel_id : Option Int
  joined_at : Option J
  owner_id : Option Int
  presences : J
  system_channel_flags : J
  icon : Option J
  threads : J
  emojis : J
  voice_states : J
  channels : J
  members : Dict Member
  roles : Dict Role
  deriving Inhabited

/-- Python iteration over a payload value (for member in members: ...):
arrays yield their elements, strings yield their one-character strings,
dicts yield their keys, and every other value raises TypeError (object is
not iterable). -/
def pyIter : J → Except PyErr (List J)
  | .ja xs => .ok xs
  | .js s => .ok (s.data.map (fun c => .js (String.mk [c])))
  | .jo kvs => .ok (kvs.map (fun kv => .js kv.1))
  | _ => .error .typeError

/-- State.add_user: constructs a User from the payload and stores it under
int(data[id]), which is exactly the id the constructor parsed. -/
def add_user (users : Dict User) (data : J) : Except PyErr (User × Dict User) :=
  match parseUser data with
  | .error e => .error e
  | .ok user => .ok (user, dinsert user.id user users)

/-- Guild._add_member: constructs the Member, stores it in the guild member
mapping under member.user.id, then ensures the embedded account also lives
in the top-level user mapping (insert only when absent). On a parse failure
nothing has been mutated yet. -/
def add_member (members : Dict Member) (users : Dict User) (data : J) :
    Dict Member × Dict User × Except PyErr Member :=
  match parseMember data with
  | .error e => (members, users, .error e)
  | .ok member =>
    let members' := dinsert member.user.id member members
    if dmember member.user.id users then
      (members', users, .ok member)
    else
      match (data.item "user").bind (add_user users ·) with
      | .ok (_, users') => (members', users', .ok member)
      | .error e => (members', users, .error e)

/-- Guild._update_members: folds _add_member over the payload member list,
keeping whatever was inserted before the first failure. -/
def update_members (members : Dict Member) (users : Dict User) :
    List J → Dict Member × Dict User × Option PyErr
  | [] => (members, users, none)
  | d :: rest =>
    match add_member members users d with
    | (m', u', .ok _) => update_members m' u' rest
    | (m', u', .error e) => (m', u', some e)

/-- Guild._add_role: constructs the Role and stores it under role.id. -/
def add_role (roles : Dict Role) (data : J) : Dict Role × Except PyErr Role :=
  match parseRole data with
  | .error e => (roles, .error e)
  | .ok role => (dinsert role.id role roles, .ok role)

/-- Guild._update_roles: folds _add_role over the payload role list. -/
def update_roles (roles : Dict Role) : List J → Dict Role × Option PyErr
  | [] => (roles, none)
  | d :: rest =>
    match add_role roles d with
    | (r', .ok _) => update_roles r' rest
    | (r', .error e) => (r', some e)

/-- Guild(data, state) via Guild._from_data: scalar fields first, then the
member list (which may add users to the state) and then the role list. The
returned user mapping keeps additions made before any failure. -/
def buildGuild (data : J) (users : Dict User) :
    Dict User × Except PyErr Guild :=
  match (data.item "id").bind pyInt with
  | .error e => (users, .error e)
  | .ok id =>
    match data.item "name" with
    | .error e => (users, .error e)
    | .ok name =>
      match pyIter (data.getD "members" (.ja [])) with
      | .error e => (users, .error e)
      | .ok memberList =>
      let (members, users', merr) :=
        update_members [] users memberList
      match merr with
      | some e => (users', .error e)
      | none =>
        match pyIter (data.getD "roles" (.ja [])) with
        | .error e => (users', .error e)
        | .ok roleList =>
        let (roles, rerr) :=
          update_roles [] roleList
        match rerr with
        | some e => (users', .error e)
        | none =>
          (users', .ok {
            id := id
            name := name
            afk_timeout := data.getD "afk_timeout" (.ji 0)
            widget_enabled := data.getD "widget_enabled" (.jb false)
            verification_level := data.getD "verification_level" (.ji 0)
            default_message_notifications := data.getD "default_message_notifications" (.ji 0)
            explicit_content_filter := data.getD "explicit_content_filter" (.ji 0)
            features := data.getD "features" (.ja [])
            mfa_level := data.getD "mfa_level" (.ji 0)
            application_id := data.get "application_id"
            large := data.getD "large" (.jb false)
            unavailable := data.getD "unavailable" (.jb false)
            member_count := data.get "member_count"
            vanity_url_code := data.get "vanity_url_code"
            description := data.get "description"
            premium_tier := data.getD "premium_tier" (.ji 0)
            premium_subscription_count := data.getD "premium_subscription_count" (.ji 0)
            preferred_locale := data.getD "preferred_locale" (.js "en-US")
            approximate_member_count := data.get "approximate_member_count"
            approximate_presence_count := data.get "approximate_presence_count"
            nsfw_level := data.getD "nsfw_level" (.ji 0)
            system_channel_id := get_snowflake data "system_channel_id"
            rules_channel_id := get_snowflake data "rules_channel_id"
            public_updates_channel_id := get_snowflake data "public_updates_channel_id"
            afk_channel_id := get_snowflake data "afk_channel_id"
            joined_at := data.get "joined_at"
            owner_id := get_snowflake data "owner_id"
            presences := data.getD "presences" (.ja [])
            system_channel_flags := data.getD "system_channel_flags" (.ji 0)
            icon := data.get "icon"
            threads := data.getD "threads" (.ja [])
            emojis := data.getD "emojis" (.ja [])
            voice_states := data.getD "voice_states" (.ja [])
            channels := data.getD "channels" (.ja [])
            members := members
            roles := roles
          })

/-- Guild.default_role: get_role(self.id). -/
def default_role (g : Guild) : Option Role :=
  dlookup g.id g.roles

/-- Guild.roles property: takes the role mapping values in insertion order,
removes the default role and appends it at the end. list.remove compares
with DiscordModel.__eq__, whose isinstance(other, self) call raises a
TypeError; the CPython identity shortcut only saves the comparison when the
scanned element is the very object stored under key guild.id, so removal
succeeds exactly when the default role is the first entry. An absent
default role makes remove raise as well (ValueError on an empty list,
otherwise the TypeError from comparing against None). -/
def rolesProperty (g : Guild) : Except PyErr (List Role) :=
  match default_role g with
  | none =>
    match g.roles with
    | [] => .error .valueError
    | _ :: _ => .error .typeError
  | some dr =>
    match g.roles with
    | [] => .error .valueError
    | (k, _) :: rest =>
      if k = g.id then .ok (rest.map Prod.snd ++ [dr])
      else .error .typeError

/-- A normalized notification handed to State.dispatch. -/
inductive Notif where
  | ready
  | user_update (before after : User)
  | guild_available (g : Guild)
  | guild_join (g : Guild)
  | guild_update (before after : Guild)
  | guild_leave (g : Option Guild)
  | member_join (m : Member)
  | member_remove (u : User)
  | member_update (before : Option Member) (after : Member)
  | role_create (r : Role)
  | role_delete (r : Role)
  | role_update (before after : Role)

/-- The Entity Store (state.py State): the top-level account mapping and
the server mapping. State.clear resets both to empty. -/
structure StateS where
  user : Option ClientUser
  users : Dict User
  guilds : Dict Guild

/-- Result of running one event handler: the mutated store, the dispatched
notifications in order, and the exception that escaped, if any. -/
abbrev HandlerResult := StateS × List Notif × Option PyErr

/-- State.handle_ready: replaces the client user, seeds the account
mapping, dispatches ready. -/
def handle_ready (st : StateS) (data : J) : HandlerResult :=
  match data.item "user" with
  | .error e => (st, [], some e)
  | .ok userJ =>
    match parseClientUser userJ with
    | .error e => (st, [], some e)
    | .ok cu =>
      match add_user st.users userJ with
      | .error e => ({ st with user := some cu }, [], some e)
      | .ok (_, users') =>
        ({ st with user := some cu, users := users' }, [.ready], none)

/-- State.handle_user_update: requires the user to be cached, snapshots it,
rebuilds it in place from the payload and dispatches before/after. -/
def handle_user_update (st : StateS) (data : J) : HandlerResult :=
  match (data.item "id").bind pyInt with
  | .error e => (st, [], some e)
  | .ok uid =>
    match dlookup uid st.users with
    | none => (st, [], none)
    | some user =>
      match parseUser data with
      | .error e => (st, [], some e)
      | .ok newUser =>
        ({ st with users := dinsert uid newUser st.users },
         [.user_update user newUser], none)

/-- State.handle_guild_create: a truthy unavailable flag drops the event;
otherwise the guild is built and stored under its id (State.add_guild),
guild_available is dispatched only when unavailable is the literal False,
and guild_join is always dispatched. -/
def handle_guild_create (st : StateS) (data : J) : HandlerResult :=
  let unavailable := data.get "unavailable"
  if truthyOpt unavailable then (st, [], none)
  else
    match buildGuild data st.users with
    | (users', .error e) => ({ st with users := users' }, [], some e)
    | (users', .ok guild) =>
      let st' := { st with users := users',
                           guilds := dinsert guild.id guild st.guilds }
      let avail := match unavailable with
        | some (.jb false) => [Notif.guild_available guild]
        | _ => []
      (st', avail ++ [.guild_join guild], none)

/-- State.handle_guild_update: unknown guilds are dropped silently; a cached
guild is snapshotted and rebuilt in place from the payload (which, through
Guild._from_data and Guild._add_member, can also add users). -/
def handle_guild_update (st : StateS) (data : J) : HandlerResult :=
  match (data.item "id").bind pyInt with
  | .error e => (st, [], some e)
  | .ok gid =>
    match dlookup gid st.guilds with
    | none => (st, [], none)
    | some guild =>
      match buildGuild data st.users with
      | (users', .error e) => ({ st with users := users' }, [], some e)
      | (users', .ok newG) =>
        ({ st with users := users', guilds := dinsert gid newG st.guilds },
         [.guild_update guild newG], none)

/-- State.handle_guild_delete: pops the guild unconditionally; guild_leave
is dispatched (possibly with None) unless the payload marks an outage. -/
def handle_guild_delete (st : StateS) (data : J) : HandlerResult :=
  let unavailable := data.get "unavailable"
  match (data.item "id").bind pyInt with
  | .error e => (st, [], some e)
  | .ok gid =>
    let guild := dlookup gid st.guilds
    let st' := { st with guilds := dpop gid st.guilds }
    if truthyOpt unavailable then (st', [], none)
    else (st', [.guild_leave guild], none)

/-- State.handle_guild_member_add: resolves the guild via _get_snowflake
(dropping silently when unknown), adds the member through
Guild._add_member and dispatches member_join. -/
def handle_guild_member_add (st : StateS) (data : J) : HandlerResult :=
  let gid := get_snowflake data "guild_id"
  match gid.bind (fun g => (dlookup g st.guilds).map (g, ·)) with
  | none => (st, [], none)
  | some (gid, guild) =>
    match add_member guild.members st.users data with
    | (m', u', .error e) =>
      ({ st with users := u',
                 guilds := dinsert gid { guild with members := m' } st.guilds },
       [], some e)
    | (m', u', .ok member) =>
      ({ st with users := u',
                 guilds := dinsert gid { guild with members := m' } st.guilds },
       [.member_join member], none)

/-- State.handle_guild_member_remove: resolves the guild (dropping silently
when unknown), builds a transient User from the WHOLE event payload (not
its user sub-object), pops that id from the member mapping and dispatches
member_remove unconditionally. -/
def handle_guild_member_remove (st : StateS) (data : J) : HandlerResult :=
  let gid := get_snowflake data "guild_id"
  match gid.bind (fun g => (dlookup g st.guilds).map (g, ·)) with
  | none => (st, [], none)
  | some (gid, guild) =>
    match parseUser data with
    | .error e => (st, [], some e)
    | .ok user =>
      let guild' := { guild with members := dpop user.id guild.members }
      ({ st with guilds := dinsert gid guild' st.guilds },
       [.member_remove user], none)

/-- State.handle_guild_member_update: resolves the guild (dropping silently
when unknown), snapshots the member looked up by int(data[user][id]) (a
copy of None when absent), re-adds the member from the payload and
dispatches member_update with that before snapshot. -/
def handle_guild_member_update (st : StateS) (data : J) : HandlerResult :=
  let gid := get_snowflake data "guild_id"
  match gid.bind (fun g => (dlookup g st.guilds).map (g, ·)) with
  | none => (st, [], none)
  | some (gid, guild) =>
    match ((data.item "user").bind (J.item · "id")).bind pyInt with
    | .error e => (st, [], some e)
    | .ok uid =>
      let before := dlookup uid guild.members
      match add_member guild.members st.users data with
      | (m', u', .error e) =>
        ({ st with users := u',
                   guilds := dinsert gid { guild with members := m' } st.guilds },
         [], some e)
      | (m', u', .ok member) =>
        ({ st with users := u',
                   guilds := dinsert gid { guild with members := m' } st.guilds },
         [.member_update before member], none)

/-- State.handle_guild_role_create: resolves the guild, adds the role from
the role sub-payload and dispatches role_create. -/
def handle_guild_role_create (st : StateS) (data : J) : HandlerResult :=
  let gid := get_snowflake data "guild_id"
  match gid.bind (fun g => (dlookup g st.guilds).map (g, ·)) with
  | none => (st, [], none)
  | some (gid, guild) =>
    match data.item "role" with
    | .error e => (st, [], some e)
    | .ok rj =>
      match add_role guild.roles rj with
      | (_, .error e) => (st, [], some e)
      | (r', .ok role) =>
        ({ st with guilds := dinsert gid { guild with roles := r' } st.guilds },
         [.role_create role], none)

/-- State.handle_guild_role_delete: resolves the guild, pops the role id
resolved through _get_snowflake, and dispatches role_delete only when a
role was actually removed. -/
def handle_guild_role_delete (st : StateS) (data : J) : HandlerResult :=
  let gid := get_snowflake data "guild_id"
  match gid.bind (fun g => (dlookup g st.guilds).map (g, ·)) with
  | none => (st, [], none)
  | some (gid, guild) =>
    let rid := get_snowflake data "role_id"
    let removed := rid.bind (fun r => dlookup r guild.roles)
    let roles' := match rid with
      | some r => dpop r guild.roles
      | none => guild.roles
    let st' := { st with
      guilds := dinsert gid { guild with roles := roles' } st.guilds }
    match removed with
    | none => (st', [], none)
    | some role => (st', [.role_delete role], none)

/-- State.handle_guild_role_update: resolves the guild, looks the role up
by int(data[role][id]); when it is absent the source calls
guild._add_role(role) where role is the None just obtained, so
Role._from_data subscripts None and raises TypeError. A found role is
snapshotted, rebuilt in place from the role sub-payload and dispatched. -/
def handle_guild_role_update (st : StateS) (data : J) : HandlerResult :=
  let gid := get_snowflake data "guild_id"
  match gid.bind (fun g => (dlookup g st.guilds).map (g, ·)) with
  | none => (st, [], none)
  | some (gid, guild) =>
    match ((data.item "role").bind (J.item · "id")).bind pyInt with
    | .error e => (st, [], some e)
    | .ok rid =>
      match dlookup rid guild.roles with
      | none =>
        match add_role guild.roles J.null with
        | (_, .error e) => (st, [], some e)
        | (r', .ok implicit) =>
          roleUpdateTail st data gid { guild with roles := r' } rid implicit
      | some role => roleUpdateTail st data gid guild rid role
where
  /-- The tail of the handler after the role is resolved: snapshot,
  role._from_data(data[role]), dispatch. -/
  roleUpdateTail (st : StateS) (data : J) (gid : Int) (guild : Guild)
      (rid : Int) (role : Role) : HandlerResult :=
    match (data.item "role").bind parseRole with
    | .error e => (st, [], some e)
    | .ok newRole =>
      ({ st with
         guilds := dinsert gid { guild with roles := dinsert rid newRole guild.roles } st.guilds },
       [.role_update role newRole], none)

/-- ASCII lowercasing of one character (str.lower on event names). -/
def lowerChar (c : Char) : Char :=
  if c.toNat ≥ 65 ∧ c.toNat ≤ 90 then Char.ofNat (c.toNat + 32) else c

/-- Python name.lower() for the ASCII event names of the gateway. -/
def pyLower (s : String) : String := ⟨s.data.map lowerChar⟩

/-- State.process_event: getattr-based routing on the lowercased event
name; names without a handler are ignored. -/
def process_event (st : StateS) (name : String) (data : J) : HandlerResult :=
  let n := pyLower name
  if n = "ready" then handle_ready st data
  else if n = "user_update" then handle_user_update st data
  else if n = "guild_create" then handle_guild_create st data
  else if n = "guild_update" then handle_guild_update st data
  else if n = "guild_delete" then handle_guild_delete st data
  else if n = "guild_member_add" then handle_guild_member_add st data
  else if n = "guild_member_remove" then handle_guild_member_remove st data
  else if n = "guild_member_update" then handle_guild_member_update st data
  else if n = "guild_role_create" then handle_guild_role_create st data
  else if n = "guild_role_delete" then handle_guild_role_delete st data
  else if n = "guild_role_update" then handle_guild_role_update st data
  else (st, [], none)

/-- The static identify configuration: the auth token, the intents value
and the sys.platform string. -/
structure Config where
  token : String
  intents : Int
  os : String

/-- The heartbeat frame sent by the gateway code: op 1 with the last known
sequence (None when absent). -/
def heartbeatFrame (seq : Option J) : J :=
  .jo [("op", .ji 1), ("d", seq.getD .null)]

/-- The identify frame built by DiscordWebsocket.identify. -/
def identifyFrame (cfg : Config) : J :=
  .jo [("op", .ji 2),
       ("d", .jo [("token", .js cfg.token),
                  ("intents", .ji cfg.intents),
                  ("properties", .jo [("$os", .js cfg.os),
                                      ("$browser", .js "ScrapCord"),
                                      ("$device", .js "ScrapCord")])])]

/-- Python x / 1000.0 for the advertised heartbeat interval: ints and
bools divide, anything else raises TypeError. The source stores the
interval in float seconds purely to hand it to time.sleep; the model keeps
the same duration in integer milliseconds (an exact unit change), so that
no floating point enters the embedding. -/
def pyDivMs : J → Except PyErr Int
  | .ji n => .ok n
  | .jb b => .ok (if b then 1 else 0)
  | _ => .error .typeError

/-- The mutable connection data of DiscordWebsocket: session id, last
stored sequence, the heartbeat interval handed to the scheduler, whether
the scheduler thread was started, and the entity state behind the client. -/
structure WS where
  session_id : Option J
  sequence : Option J
  hbInterval : Option Int
  hbStarted : Bool
  state : StateS

/-- How one iteration of DiscordWebsocket.handle_events ends. -/
inductive Outcome where
  | normal
  | reconnect
  | err (e : PyErr)
  deriving Repr, DecidableEq

/-- An exception escaping a handler ends the loop iteration abnormally. -/
def errOutcome : Option PyErr → Outcome
  | some e => .err e
  | none => .normal

/-- The observable effect of one handle_events iteration. -/
structure StepResult where
  ws : WS
  sent : List J
  notifs : List Notif
  outcome : Outcome

/-- Is the frame an outbound frame with the given opcode. -/
def isOpFrame (n : Int) (f : J) : Bool :=
  match f.get "op" with
  | some (.ji m) => m = n
  | _ => false

/-- handle_events sequence bookkeeping: a truthy s field is stored for
sending in heartbeats (if sequence: self.sequence = sequence). -/
def seqStore (ws : WS) (s : Option J) : WS :=
  if truthyOpt s then { ws with sequence := s } else ws

/-- The opcode branching of one handle_events iteration, applied after the
sequence bookkeeping to the already-updated connection data. -/
def stepOp (cfg : Config) (ws : WS) (msg data op : J) : StepResult :=
  match op with
  | .ji n =>
    if n = 10 then
      match (data.item "heartbeat_interval").bind pyDivMs with
      | .error e => ⟨ws, [], [], .err e⟩
      | .ok interval =>
        if ws.hbStarted then
          ⟨{ ws with hbInterval := some interval },
           [heartbeatFrame ws.sequence], [], .err .runtimeError⟩
        else
          ⟨{ ws with hbInterval := some interval, hbStarted := true },
           [heartbeatFrame ws.sequence, identifyFrame cfg], [], .normal⟩
    else if n = 1 then
      ⟨ws, [heartbeatFrame ws.sequence], [], .normal⟩
    else if n = 0 then
      match msg.item "t" with
      | .error e => ⟨ws, [], [], .err e⟩
      | .ok t =>
        match t with
        | .js name =>
          if name = "READY" then
            match data.item "session_id" with
            | .error e => ⟨ws, [], [], .err e⟩
            | .ok sid =>
              ⟨{ ws with session_id := some sid,
                         state := (process_event ws.state name data).1 },
               [], (process_event ws.state name data).2.1,
               errOutcome (process_event ws.state name data).2.2⟩
          else
            ⟨{ ws with state := (process_event ws.state name data).1 },
             [], (process_event ws.state name data).2.1,
             errOutcome (process_event ws.state name data).2.2⟩
        | _ => ⟨ws, [], [], .err .typeError⟩
    else if n = 7 then
      ⟨ws, [], [], .reconnect⟩
    else
      ⟨ws, [], [], .normal⟩
  | _ => ⟨ws, [], [], .normal⟩

/-- One iteration of DiscordWebsocket.handle_events on an inbound message:
extract op, d and s; store a truthy s as the sequence; then branch on
HELLO (assign the interval, send an immediate heartbeat, start the
scheduler thread, identify — where threading.Thread.start raises
RuntimeError if the scheduler was already started, so identify is never
reached on a second Hello), HEARTBEAT (send a heartbeat on demand),
DISPATCH (store the session id on READY, then route through
State.process_event) and RECONNECT (raise ReconnectDiscordWebsocket).
Every other opcode, including InvalidSession (9) and HeartbeatAck (11),
falls through with no effect. -/
def step (cfg : Config) (ws : WS) (msg : J) : StepResult :=
  match msg.item "op" with
  | .error e => ⟨ws, [], [], .err e⟩
  | .ok op =>
    match msg.item "d" with
    | .error e => ⟨ws, [], [], .err e⟩
    | .ok data =>
      stepOp cfg (seqStore ws (msg.get "s")) msg data op

/-- Relative time (in milliseconds) at which HeartbeatHandler._handler
performs its k-th send after the thread starts: the loop body sends first
and only then sleeps for the interval, so the k-th send happens at k times
the interval. -/
def hbSendTime (interval : Int) (k : ℕ) : Int := k * interval

/-- One tick of the HeartbeatHandler loop body: when the socket is closed
the loop has exited, otherwise a heartbeat carrying the current sequence is
sent. The tick consults nothing else: no acknowledgement flag exists. -/
def hbTick (closed : Bool) (seq : Option J) : List J :=
  if closed then [] else [heartbeatFrame seq]

/-- Timed sends observed after a Hello frame is processed at relative time
zero with no further inbound traffic: the event loop sends at time zero in
handle_events order, then the scheduler thread performs its first n sends
at times k * interval. -/
def helloTimeline (cfg : Config) (ws : WS) (msg : J) (n : ℕ) : List (Int × J) :=
  let r := step cfg ws msg
  let interval := r.ws.hbInterval.getD 0
  (r.sent.map (fun f => ((0 : Int), f))) ++
    (List.range n).map (fun k => (hbSendTime interval k, heartbeatFrame r.ws.sequence))

/-- The standard zlib stream trailer bytes checked by receive_json. -/
def zlibTrailer : List ℕ := [0x00, 0x00, 0xff, 0xff]

/-- The binary branch of DiscordWebsocket.receive_json acting on the
pending buffer and one inbound binary frame: a frame not terminated by the
trailer makes the method return None WITHOUT touching the buffer (the
bytes of the frame are dropped), and a terminated frame evaluates the bare
name inflator, which is not defined anywhere, so a NameError is raised
before self.buffer is decompressed or reset. -/
def receiveBytes (buffer : List ℕ) (data : List ℕ) :
    List ℕ × Option PyErr :=
  if data.length < 4 ∨ data.drop (data.length - 4) ≠ zlibTrailer then
    (buffer, none)
  else
    (buffer, some (.nameError "inflator"))

theorem parseUser_id {data : J} {u : User} (h : parseUser data = .ok u) :
    (data.item "id").bind pyInt = .ok u.id := by
  unfold parseUser at h
  cases h1 : data.item "username" <;> simp [h1] at h
  cases h2 : (data.item "id").bind pyInt <;> simp [h2] at h
  cases h3 : data.item "discriminator" <;> simp [h3] at h
  subst h
  rfl

theorem parseMember_user {data : J} {m : Member} (h : parseMember data = .ok m) :
    ∃ uj, data.item "user" = .ok uj ∧ parseUser uj = .ok m.user := by
  unfold parseMember at h
  cases h1 : data.item "user" <;> simp [h1] at h
  rename_i uj
  cases h2 : parseUser uj <;> simp [h2] at h
  subst h
  exact ⟨uj, rfl, h2⟩

theorem add_member_ok {members : Dict Member} {users : Dict User} {data : J}
    {m : Member} (h : parseMember data = .ok m) :
    add_member members users data =
      (dinsert m.user.id m members,
       if dmember m.user.id users then users
       else dinsert m.user.id m.user users,
       .ok m) := by
  obtain ⟨uj, hu, hpu⟩ := parseMember_user h
  unfold add_member
  rw [h]
  by_cases hm : dmember m.user.id users
  · simp [hm]
  · simp only [hm, if_neg, Bool.false_eq_true, if_false]
    rw [hu]
    simp [Except.bind, add_user, hpu]

theorem add_member_err {members : Dict Member} {users : Dict User} {data : J}
    {e : PyErr} (h : parseMember data = .error e) :
    add_member members users data = (members, users, .error e) := by
  unfold add_member
  rw [h]

theorem update_members_indep (ds : List J) (members : Dict Member)
    (u1 u2 : Dict User) :
    (update_members members u1 ds).1 = (update_members members u2 ds).1 ∧
    (update_members members u1 ds).2.2 = (update_members members u2 ds).2.2 := by
  induction ds generalizing members u1 u2 with
  | nil => exact ⟨rfl, rfl⟩
  | cons d rest ih =>
    cases h : parseMember d with
    | error e =>
      simp [update_members, add_member_err h]
    | ok m =>
      simp only [update_members, add_member_ok h]
      exact ih _ _ _

/-- The Guild value produced by Guild._from_data is a pure function of the
payload (the user mapping only receives side effects). -/
def pureGuild (data : J) : Except PyErr Guild :=
  (buildGuild data []).2

theorem buildGuild_snd_eq (data : J) (users : Dict User) :
    (buildGuild data users).2 = pureGuild data := by
  unfold pureGuild buildGuild
  cases h1 : (data.item "id").bind pyInt
  · rfl
  · cases h2 : data.item "name"
    · rfl
    · cases h3 : pyIter (data.getD "members" (.ja []))
      · rfl
      · rename_i memberList
        have hm := update_members_indep memberList [] users []
        dsimp only
        rw [hm.1, hm.2]
        cases hA : (update_members [] [] memberList).2.2 with
        | none =>
          cases h4 : pyIter (data.getD "roles" (.ja []))
          · rfl
          · rename_i roleList
            dsimp only
            cases hB : (update_roles [] roleList).2 with
            | none => rfl
            | some e => rfl
        | some e => rfl

/-- An inbound server-create/update/delete dispatch event with its payload. -/
inductive GuildEvent where
  | create (data : J)
  | update (data : J)
  | delete (data : J)

/-- Routing of a guild event through State.process_event to its handler. -/
def applyGuildEvent (st : StateS) (e : GuildEvent) : HandlerResult :=
  match e with
  | .create d => process_event st "GUILD_CREATE" d
  | .update d => process_event st "GUILD_UPDATE" d
  | .delete d => process_event st "GUILD_DELETE" d

/-- The read loop applying a sequence of guild events in order. -/
def runGuildEvents (st : StateS) (evs : List GuildEvent) : StateS :=
  evs.foldl (fun s e => (applyGuildEvent s e).1) st

/-- Modelled from the spec sentence under test (the claim side of the
refinement): the per-event net effect on the server mapping alone. A
create marked unavailable changes nothing; any other create inserts or
replaces the server keyed by its id; an update replaces the entry when the
server is present; a delete removes the entry. The error branches are
unreachable for well-formed events. -/
def netGuildStep (m : Dict Guild) (e : GuildEvent) : Dict Guild :=
  match e with
  | .create d =>
    if truthyOpt (d.get "unavailable") then m
    else
      match pureGuild d with
      | .ok g => dinsert g.id g m
      | .error _ => m
  | .update d =>
    match (d.item "id").bind pyInt with
    | .ok gid =>
      match dlookup gid m, pureGuild d with
      | some _, .ok g => dinsert gid g m
      | _, _ => m
    | .error _ => m
  | .delete d =>
    match (d.item "id").bind pyInt with
    | .ok gid => dpop gid m
    | .error _ => m

/-- Well-formedness of a guild event payload: the fields the handlers
extract parse successfully, so no handler raises on it (in any state). -/
def guildEventOK : GuildEvent → Bool
  | .create d => truthyOpt (d.get "unavailable") || (pureGuild d).toOption.isSome
  | .update d =>
    ((d.item "id").bind pyInt).toOption.isSome && (pureGuild d).toOption.isSome
  | .delete d => ((d.item "id").bind pyInt).toOption.isSome

theorem except_isSome {α : Type} {r : Except PyErr α}
    (h : r.toOption.isSome = true) : ∃ a, r = .ok a := by
  cases r with
  | error e => simp [Except.toOption] at h
  | ok a => exact ⟨a, rfl⟩

theorem route_guild_create (st : StateS) (d : J) :
    process_event st "GUILD_CREATE" d = handle_guild_create st d := rfl

theorem route_guild_update (st : StateS) (d : J) :
    process_event st "GUILD_UPDATE" d = handle_guild_update st d := rfl

theorem route_guild_delete (st : StateS) (d : J) :
    process_event st "GUILD_DELETE" d = handle_guild_delete st d := rfl

theorem applyGuildEvent_guilds (st : StateS) (e : GuildEvent)
    (h : guildEventOK e = true) :
    (applyGuildEvent st e).1.guilds = netGuildStep st.guilds e := by
  cases e with
  | create d =>
    rw [show applyGuildEvent st (GuildEvent.create d) = handle_guild_create st d
          from route_guild_create st d]
    unfold handle_guild_create netGuildStep
    dsimp only
    by_cases hu : truthyOpt (d.get "unavailable")
    · simp [hu]
    · simp only [guildEventOK, hu, Bool.false_or] at h
      obtain ⟨g, hpg⟩ := except_isSome h
      have hb : (buildGuild d st.users).2 = .ok g := by
        rw [buildGuild_snd_eq, hpg]
      simp only [hu, Bool.false_eq_true, if_false, hpg]
      cases hbb : buildGuild d st.users with
      | mk users' res =>
        rw [hbb] at hb
        simp only at hb
        subst hb
        simp
  | update d =>
    rw [show applyGuildEvent st (GuildEvent.update d) = handle_guild_update st d
          from route_guild_update st d]
    unfold handle_guild_update netGuildStep
    dsimp only
    simp only [guildEventOK, Bool.and_eq_true] at h
    obtain ⟨gid, hid⟩ := except_isSome h.1
    obtain ⟨g, hpg⟩ := except_isSome h.2
    rw [hid, hpg]
    cases hl : dlookup gid st.guilds with
    | none => simp [hl]
    | some guild =>
      have hb : (buildGuild d st.users).2 = .ok g := by
        rw [buildGuild_snd_eq, hpg]
      cases hbb : buildGuild d st.users with
      | mk users' res =>
        rw [hbb] at hb
        simp only at hb
        subst hb
        simp [hl]
  | delete d =>
    rw [show applyGuildEvent st (GuildEvent.delete d) = handle_guild_delete st d
          from route_guild_delete st d]
    unfold handle_guild_delete netGuildStep
    dsimp only
    simp only [guildEventOK] at h
    obtain ⟨gid, hid⟩ := except_isSome h
    rw [hid]
    by_cases hu : truthyOpt (d.get "unavailable") <;> simp [hu]

theorem runGuildEvents_guilds (evs : List GuildEvent) : ∀ st : StateS,
    evs.all guildEventOK = true →
    (runGuildEvents st evs).guilds = evs.foldl netGuildStep st.guilds := by
  induction evs with
  | nil => intro st _; rfl
  | cons e rest ih =>
    intro st h
    simp only [List.all_cons, Bool.and_eq_true] at h
    have hstep := applyGuildEvent_guilds st e h.1
    have hrec := ih ((applyGuildEvent st e).1) h.2
    calc (runGuildEvents st (e :: rest)).guilds
        = (runGuildEvents (applyGuildEvent st e).1 rest).guilds := rfl
      _ = rest.foldl netGuildStep (applyGuildEvent st e).1.guilds := hrec
      _ = rest.foldl netGuildStep (netGuildStep st.guilds e) := by rw [hstep]
      _ = (e :: rest).foldl netGuildStep st.guilds := rfl

theorem netCreate_idem (m : Dict Guild) (d : J) :
    netGuildStep (netGuildStep m (.create d)) (.create d) =
      netGuildStep m (.create d) := by
  unfold netGuildStep
  by_cases hu : truthyOpt (d.get "unavailable")
  · simp [hu]
  · cases hpg : pureGuild d with
    | error e => simp [hu, hpg]
    | ok g => simp [hu, hpg, dinsert_idem]

/-- C5: for every sequence of well-formed inbound server-create/update/
delete dispatch events, the server mapping of the Entity Store equals the
net per-event effect applied in order (a create marked unavailable changes
nothing, any other create inserts or replaces the server keyed by its id,
a delete removes the entry), and replaying an identical create a second
time yields the same mapping as applying it once. -/
theorem spec_C5_guild_event_net_effect (st : StateS) (evs : List GuildEvent)
    (d : J) (h : evs.all guildEventOK = true)
    (hc : guildEventOK (.create d) = true) :
    (runGuildEvents st evs).guilds = evs.foldl netGuildStep st.guilds ∧
    (runGuildEvents st (evs ++ [.create d, .create d])).guilds =
      (runGuildEvents st (evs ++ [.create d])).guilds := by
  refine ⟨runGuildEvents_guilds evs st h, ?_⟩
  have h2 : (evs ++ [GuildEvent.create d, GuildEvent.create d]).all guildEventOK = true := by
    simp [List.all_append, h, hc]
  have h1 : (evs ++ [GuildEvent.create d]).all guildEventOK = true := by
    simp [List.all_append, h, hc]
  rw [runGuildEvents_guilds _ st h2, runGuildEvents_guilds _ st h1]
  rw [List.foldl_append, List.foldl_append]
  simp only [List.foldl_cons, List.foldl_nil]
  exact netCreate_idem _ d

theorem member_uid_ok {data : J} {m : Member} (hm : parseMember data = .ok m) :
    ((data.item "user").bind (J.item · "id")).bind pyInt = .ok m.user.id := by
  obtain ⟨uj, hu, hpu⟩ := parseMember_user hm
  rw [hu]
  have : (Except.ok uj).bind (J.item · "id") = uj.item "id" := rfl
  rw [this]
  exact parseUser_id hpu

/-- C8: after a member-add or member-update event for a cached server, the
id of the added member's embedded account is a key of the top-level account
mapping; the account is inserted when absent and the mapping is untouched
when it is already present. -/
theorem spec_C8_member_account_in_users (st : StateS) (data : J) (gid : Int)
    (guild : Guild) (m : Member)
    (hg : get_snowflake data "guild_id" = some gid)
    (hl : dlookup gid st.guilds = some guild)
    (hm : parseMember data = .ok m) :
    ((handle_guild_member_add st data).2.2 = none ∧
     dmember m.user.id (handle_guild_member_add st data).1.users = true ∧
     (dmember m.user.id st.users = true →
       (handle_guild_member_add st data).1.users = st.users)) ∧
    ((handle_guild_member_update st data).2.2 = none ∧
     dmember m.user.id (handle_guild_member_update st data).1.users = true ∧
     (dmember m.user.id st.users = true →
       (handle_guild_member_update st data).1.users = st.users)) := by
  have huid := member_uid_ok hm
  constructor
  · unfold handle_guild_member_add
    rw [hg]
    dsimp only [Option.bind]
    rw [hl]
    dsimp only [Option.map]
    rw [add_member_ok hm]
    cases hmem : dlookup m.user.id st.users with
    | some u => simp [dmember, hmem]
    | none => simp [dmember, hmem, dlookup_dinsert_self]
  · unfold handle_guild_member_update
    rw [hg]
    dsimp only [Option.bind]
    rw [hl]
    dsimp only [Option.map]
    rw [huid]
    rw [add_member_ok hm]
    cases hmem : dlookup m.user.id st.users with
    | some u => simp [dmember, hmem]
    | none => simp [dmember, hmem, dlookup_dinsert_self]

/-- C10: a member-update event for a cached server and a member id not in
that server's member mapping inserts the member built from the payload and
dispatches a member_update notification whose before snapshot is None; the
event is neither dropped nor turned into a member_join. -/
theorem spec_C10_member_update_absent_member (st : StateS) (data : J)
    (gid : Int) (guild : Guild) (m : Member)
    (hg : get_snowflake data "guild_id" = some gid)
    (hl : dlookup gid st.guilds = some guild)
    (hm : parseMember data = .ok m)
    (habs : dlookup m.user.id guild.members = none) :
    (handle_guild_member_update st data).2.1 = [Notif.member_update none m] ∧
    (handle_guild_member_update st data).2.2 = none ∧
    (dlookup gid (handle_guild_member_update st data).1.guilds).map Guild.members =
      some (dinsert m.user.id m guild.members) := by
  have huid := member_uid_ok hm
  unfold handle_guild_member_update
  rw [hg]
  dsimp only [Option.bind]
  rw [hl]
  dsimp only [Option.map]
  rw [huid]
  rw [add_member_ok hm]
  cases hmem : dlookup m.user.id st.users with
  | some u => simp [dmember, hmem, habs, dlookup_dinsert_self]
  | none => simp [dmember, hmem, habs, dlookup_dinsert_self]

/-- Empty Entity Store, as produced by State.clear. -/
def emptyState : StateS := ⟨none, [], []⟩

def c5_guild_payload : J := .jo [("id", .ji 10), ("name", .js "guild ten")]

def c5_update_payload : J := .jo [("id", .ji 10), ("name", .js "renamed")]

def c5_delete_payload : J := .jo [("id", .ji 10)]

def c5_events : List GuildEvent :=
  [.create c5_guild_payload, .update c5_update_payload, .delete c5_delete_payload]

theorem spec_C5_witness :
    (runGuildEvents emptyState c5_events).guilds =
      c5_events.foldl netGuildStep emptyState.guilds ∧
    (runGuildEvents emptyState
        (c5_events ++ [.create c5_guild_payload, .create c5_guild_payload])).guilds =
      (runGuildEvents emptyState (c5_events ++ [.create c5_guild_payload])).guilds :=
  spec_C5_guild_event_net_effect emptyState c5_events c5_guild_payload rfl rfl

def c8_state : StateS :=
  (handle_guild_create emptyState (.jo [("id", .ji 7), ("name", .js "srv")])).1

def c8_payload : J :=
  .jo [("guild_id", .ji 7),
       ("user", .jo [("username", .js "alice"), ("id", .ji 99),
                     ("discriminator", .js "0001")])]

def c8_guild : Guild := (dlookup 7 c8_state.guilds).getD default

def c8_member : Member :=
  match parseMember c8_payload with
  | .ok m => m
  | .error _ => default

theorem spec_C8_witness :
    (handle_guild_member_add c8_state c8_payload).2.2 = none ∧
    dmember c8_member.user.id (handle_guild_member_add c8_state c8_payload).1.users = true ∧
    (handle_guild_member_update c8_state c8_payload).2.2 = none ∧
    dmember c8_member.user.id (handle_guild_member_update c8_state c8_payload).1.users = true :=
  have h := spec_C8_member_account_in_users c8_state c8_payload 7 c8_guild c8_member
    rfl rfl rfl
  ⟨h.1.1, h.1.2.1, h.2.1, h.2.2.1⟩

def c10_state : StateS :=
  (handle_guild_create emptyState (.jo [("id", .ji 4), ("name", .js "s4")])).1

def c10_payload : J :=
  .jo [("guild_id", .ji 4),
       ("user", .jo [("username", .js "bob"), ("id", .ji 55),
                     ("discriminator", .js "0002")])]

def c10_guild : Guild := (dlookup 4 c10_state.guilds).getD default

def c10_member : Member :=
  match parseMember c10_payload with
  | .ok m => m
  | .error _ => default

theorem spec_C10_witness :
    (handle_guild_member_update c10_state c10_payload).2.1 =
      [Notif.member_update none c10_member] ∧
    (handle_guild_member_update c10_state c10_payload).2.2 = none ∧
    (dlookup 4 (handle_guild_member_update c10_state c10_payload).1.guilds).map Guild.members =
      some (dinsert c10_member.user.id c10_member c10_guild.members) :=
  spec_C10_member_update_absent_member c10_state c10_payload 4 c10_guild c10_member
    rfl rfl rfl rfl

/-- C1 (amended): a member-remove for a cached server whose member mapping
does not contain the payload's member id leaves the Entity Store unchanged
but STILL dispatches a member_remove notification carrying the transient
user built from the payload; replaying the frame repeats the dispatch. -/
theorem spec_C1_member_remove_absent (st : StateS) (data : J) (gid : Int)
    (guild : Guild) (user : User)
    (hg : get_snowflake data "guild_id" = some gid)
    (hl : dlookup gid st.guilds = some guild)
    (hu : parseUser data = .ok user)
    (habs : dlookup user.id guild.members = none) :
    handle_guild_member_remove st data = (st, [.member_remove user], none) := by
  unfold handle_guild_member_remove
  rw [hg]
  dsimp only [Option.bind]
  rw [hl]
  dsimp only [Option.map]
  rw [hu]
  dsimp only
  rw [dpop_of_dlookup_none habs]
  have hins : dinsert gid { guild with members := guild.members } st.guilds = st.guilds :=
    dinsert_self_of_dlookup hl
  rw [hins]

def c1_state : StateS :=
  (handle_guild_create emptyState (.jo [("id", .ji 10), ("name", .js "g10")])).1

def c1_payload : J :=
  .jo [("guild_id", .ji 10), ("username", .js "gone"), ("id", .ji 99),
       ("discriminator", .js "0009")]

/-- Member 99 is not cached in server 10 of the fixture state. -/
def c1_member_absent : Bool :=
  match dlookup 10 c1_state.guilds with
  | some g => !(dmember 99 g.members)
  | none => false

def c1_notif_count : Nat :=
  (handle_guild_member_remove c1_state c1_payload).2.1.length

/-- C1 counterexample: for a member-remove naming cached server 10 and the
absent member id 99, the Entity Store is indeed unchanged but one
member_remove notification IS dispatched, so the claim that nothing is
dispatched is false on this input. -/
theorem spec_C1_counterexample :
    c1_member_absent = true ∧
    (handle_guild_member_remove c1_state c1_payload).1 = c1_state ∧
    c1_notif_count = 1 :=
  ⟨rfl, rfl, rfl⟩

def c1_guild : Guild := (dlookup 10 c1_state.guilds).getD default

def c1_user : User :=
  match parseUser c1_payload with
  | .ok u => u
  | .error _ => default

theorem spec_C1_witness :
    handle_guild_member_remove c1_state c1_payload =
      (c1_state, [.member_remove c1_user], none) :=
  spec_C1_member_remove_absent c1_state c1_payload 10 c1_guild c1_user
    rfl rfl rfl rfl

/-- C4 (amended): an inbound InvalidSession frame (op 9) matches no branch
of handle_events: the Entity Store is NOT cleared (the whole client state
is untouched apart from sequence bookkeeping), nothing is sent (so no
re-identify happens) and the loop continues normally. -/
theorem seqStore_state (ws : WS) (s : Option J) :
    (seqStore ws s).state = ws.state := by
  unfold seqStore
  split <;> rfl

theorem seqStore_hbStarted (ws : WS) (s : Option J) :
    (seqStore ws s).hbStarted = ws.hbStarted := by
  unfold seqStore
  split <;> rfl

theorem spec_C4_invalid_session_ignored (cfg : Config) (ws : WS) (msg d : J)
    (hop : msg.item "op" = .ok (.ji 9))
    (hd : msg.item "d" = .ok d) :
    (step cfg ws msg).ws.state = ws.state ∧
    (step cfg ws msg).sent = [] ∧
    (step cfg ws msg).notifs = [] ∧
    (step cfg ws msg).outcome = Outcome.normal := by
  unfold step
  rw [hop]
  dsimp only
  rw [hd]
  dsimp only
  unfold stepOp
  simp [seqStore_state]

def c4_cfg : Config := ⟨"token", 513, "linux"⟩

def c4_state : StateS :=
  (handle_guild_create emptyState
    (.jo [("id", .ji 10), ("name", .js "g"),
          ("members", .ja [.jo [("user",
            .jo [("username", .js "u"), ("id", .ji 99),
                 ("discriminator", .js "0003")])]])])).1

def c4_ws : WS := ⟨some (.js "sess"), some (.ji 5), none, true, c4_state⟩

def c4_msg : J := .jo [("op", .ji 9), ("d", .jb false)]

def c4_users_count : Nat := c4_state.users.length

def c4_guilds_count : Nat := c4_state.guilds.length

/-- C4 counterexample: with one cached account and one cached server, the
inbound frame op 9 with d false leaves both mappings fully populated (the
Entity Store is NOT cleared) and sends nothing, against the claim that the
store is cleared entirely before re-identifying. -/
theorem spec_C4_counterexample :
    c4_users_count = 1 ∧ c4_guilds_count = 1 ∧
    (step c4_cfg c4_ws c4_msg).ws.state = c4_state ∧
    (step c4_cfg c4_ws c4_msg).sent = [] :=
  ⟨rfl, rfl, rfl, rfl⟩

theorem spec_C4_witness :
    (step c4_cfg c4_ws c4_msg).ws.state = c4_ws.state ∧
    (step c4_cfg c4_ws c4_msg).sent = [] ∧
    (step c4_cfg c4_ws c4_msg).notifs = [] ∧
    (step c4_cfg c4_ws c4_msg).outcome = Outcome.normal :=
  spec_C4_invalid_session_ignored c4_cfg c4_ws c4_msg (.jb false) rfl rfl

theorem step_sent_shape (cfg : Config) (ws : WS) (msg : J) :
    (step cfg ws msg).sent = [] ∨
    (∃ s, (step cfg ws msg).sent = [heartbeatFrame s]) ∨
    (∃ s, (step cfg ws msg).sent = [heartbeatFrame s, identifyFrame cfg]) := by
  unfold step stepOp
  repeat' split
  all_goals
    first
    | exact Or.inl rfl
    | exact Or.inr (Or.inl ⟨_, rfl⟩)
    | exact Or.inr (Or.inr ⟨_, rfl⟩)

theorem step_never_sends_resume (cfg : Config) (ws : WS) (msg : J) :
    (step cfg ws msg).sent.countP (isOpFrame 6) = 0 := by
  rcases step_sent_shape cfg ws msg with h | ⟨s, h⟩ | ⟨s, h⟩ <;> rw [h] <;>
    simp [List.countP_cons, isOpFrame, heartbeatFrame, identifyFrame,
          J.get, List.lookup]

theorem step_hello_fresh (cfg : Config) (ws : WS) (msg d : J) (q : Int)
    (hop : msg.item "op" = .ok (.ji 10))
    (hd : msg.item "d" = .ok d)
    (hint : (d.item "heartbeat_interval").bind pyDivMs = .ok q)
    (hfresh : ws.hbStarted = false) :
    (step cfg ws msg).sent =
      [heartbeatFrame (seqStore ws (msg.get "s")).sequence, identifyFrame cfg] ∧
    (step cfg ws msg).ws.hbInterval = some q ∧
    (step cfg ws msg).ws.hbStarted = true ∧
    (step cfg ws msg).outcome = Outcome.normal := by
  unfold step
  rw [hop]
  dsimp only
  rw [hd]
  dsimp only
  unfold stepOp
  rw [hint]
  have hf : (seqStore ws (msg.get "s")).hbStarted = false := by
    rw [seqStore_hbStarted]
    exact hfresh
  simp [hf]

theorem step_hello_started (cfg : Config) (ws : WS) (msg d : J) (q : Int)
    (hop : msg.item "op" = .ok (.ji 10))
    (hd : msg.item "d" = .ok d)
    (hint : (d.item "heartbeat_interval").bind pyDivMs = .ok q)
    (hstarted : ws.hbStarted = true) :
    (step cfg ws msg).sent =
      [heartbeatFrame (seqStore ws (msg.get "s")).sequence] ∧
    (step cfg ws msg).ws.hbInterval = some q ∧
    (step cfg ws msg).ws.hbStarted = true ∧
    (step cfg ws msg).outcome = Outcome.err PyErr.runtimeError := by
  unfold step
  rw [hop]
  dsimp only
  rw [hd]
  dsimp only
  unfold stepOp
  rw [hint]
  have hf : (seqStore ws (msg.get "s")).hbStarted = true := by
    rw [seqStore_hbStarted]
    exact hstarted
  simp [hf]

/-- C2 (amended): on a reconnect with a session id and sequence known from
the prior session the scheduler thread is necessarily already started (the
session id is only stored on READY, which postdates the first Hello), so
the Hello handling on the new socket sends the immediate heartbeat and
then dies on threading.Thread.start raising RuntimeError: NEITHER a Resume
frame (op 6) nor an Identify frame (op 2) is sent on that connection.
Moreover no iteration of the event loop ever sends a Resume frame — the
op 6 frame in Client.connect is only reachable after the inner event loop
has returned, i.e. once that socket is closed. -/
theorem spec_C2_reconnect_no_resume (cfg : Config) (ws : WS)
    (msg d : J) (q : Int)
    (hstarted : ws.hbStarted = true)
    (hop : msg.item "op" = .ok (.ji 10))
    (hd : msg.item "d" = .ok d)
    (hint : (d.item "heartbeat_interval").bind pyDivMs = .ok q) :
    (step cfg ws msg).sent =
      [heartbeatFrame (seqStore ws (msg.get "s")).sequence] ∧
    (step cfg ws msg).sent.countP (isOpFrame 6) = 0 ∧
    (step cfg ws msg).sent.countP (isOpFrame 2) = 0 ∧
    (step cfg ws msg).outcome = Outcome.err PyErr.runtimeError ∧
    (∀ (ws' : WS) (msg' : J),
      (step cfg ws' msg').sent.countP (isOpFrame 6) = 0) := by
  obtain ⟨hsent, _, _, hout⟩ := step_hello_started cfg ws msg d q hop hd hint hstarted
  refine ⟨hsent, ?_, ?_, hout, fun ws' msg' => step_never_sends_resume cfg ws' msg'⟩
  · rw [hsent]
    simp [List.countP_cons, isOpFrame, heartbeatFrame, J.get, List.lookup]
  · rw [hsent]
    simp [List.countP_cons, isOpFrame, heartbeatFrame, J.get, List.lookup]

def c2_cfg : Config := ⟨"tok", 513, "linux"⟩

def c2_ws : WS := ⟨some (.js "abc"), some (.ji 42), none, true, emptyState⟩

def c2_hello : J :=
  .jo [("op", .ji 10), ("d", .jo [("heartbeat_interval", .ji 41250)])]

def c2_identify_count : Nat :=
  ((step c2_cfg c2_ws c2_hello).sent.filter (isOpFrame 2)).length

def c2_resume_count : Nat :=
  ((step c2_cfg c2_ws c2_hello).sent.filter (isOpFrame 6)).length

/-- C2 counterexample: with session id abc and sequence 42 known from the
prior session (and hence the scheduler thread already started), processing
Hello on the new socket sends zero Resume frames — the promised op 6 frame
never goes out (and no Identify goes out either: the branch dies on the
second Thread.start with RuntimeError right after the heartbeat). -/
theorem spec_C2_counterexample :
    c2_ws.session_id.isSome = true ∧ c2_ws.sequence.isSome = true ∧
    c2_ws.hbStarted = true ∧
    c2_resume_count = 0 ∧ c2_identify_count = 0 ∧
    (step c2_cfg c2_ws c2_hello).outcome = Outcome.err PyErr.runtimeError :=
  ⟨rfl, rfl, rfl, rfl, rfl, rfl⟩

theorem spec_C2_witness :
    (step c2_cfg c2_ws c2_hello).sent =
      [heartbeatFrame (seqStore c2_ws (c2_hello.get "s")).sequence] ∧
    (step c2_cfg c2_ws c2_hello).sent.countP (isOpFrame 6) = 0 ∧
    (step c2_cfg c2_ws c2_hello).sent.countP (isOpFrame 2) = 0 ∧
    (step c2_cfg c2_ws c2_hello).outcome = Outcome.err PyErr.runtimeError :=
  have h := spec_C2_reconnect_no_resume c2_cfg c2_ws c2_hello
    (.jo [("heartbeat_interval", .ji 41250)]) 41250 rfl rfl rfl rfl
  ⟨h.1, h.2.1, h.2.2.1, h.2.2.2.1⟩

theorem errOutcome_ne_reconnect (x : Option PyErr) :
    errOutcome x ≠ Outcome.reconnect := by
  cases x <;> simp [errOutcome]

theorem step_reconnect_iff (cfg : Config) (ws : WS) (msg op d : J)
    (hop : msg.item "op" = .ok op) (hd : msg.item "d" = .ok d) :
    ((step cfg ws msg).outcome = Outcome.reconnect ↔ op = .ji 7) := by
  unfold step
  rw [hop]
  dsimp only
  rw [hd]
  dsimp only
  unfold stepOp
  cases op with
  | ji n =>
    simp only [J.ji.injEq]
    by_cases h10 : n = 10
    · cases hint : (d.item "heartbeat_interval").bind pyDivMs with
      | error e => simp [h10, hint]
      | ok q =>
        cases hf : (seqStore ws (msg.get "s")).hbStarted <;>
          simp [h10, hint, hf]
    · by_cases h1 : n = 1
      · simp [h10, h1]
      · by_cases h0 : n = 0
        · subst h0
          simp only [h10, h1, if_false]
          cases ht : msg.item "t" with
          | error e => simp [ht]
          | ok t =>
            cases t with
            | js s =>
              by_cases hr : s = "READY"
              · cases hsid : d.item "session_id" <;>
                  simp [ht, hr, hsid, errOutcome_ne_reconnect]
              · simp [ht, hr, errOutcome_ne_reconnect]
            | null => simp [ht]
            | jb b => simp [ht]
            | ji m => simp [ht]
            | ja xs => simp [ht]
            | jo kvs => simp [ht]
        · by_cases h7 : n = 7
          · simp [h10, h1, h0, h7]
          · simp [h10, h1, h0, h7]
  | null => simp
  | jb b => simp
  | js s => simp
  | ja xs => simp
  | jo kvs => simp

/-- C3 (amended): after Hello the event loop itself sends exactly one
immediate heartbeat (then the identify frame) and starts the scheduler;
the scheduler thread ALSO sends immediately on start (its k-th send is at
k times the interval, so its first is at time zero, making two immediate
heartbeats in total) and then spaces sends by the advertised interval; no
acknowledgement is tracked anywhere: a tick on an open socket always sends
a heartbeat, and a loop iteration ends in reconnect exactly on an op 7
frame — a missed ack can never force the connection out of Connected. -/
theorem spec_C3_heartbeat_schedule (cfg : Config) (ws : WS) (msg d : J) (q : Int)
    (hop : msg.item "op" = .ok (.ji 10))
    (hd : msg.item "d" = .ok d)
    (hint : (d.item "heartbeat_interval").bind pyDivMs = .ok q) :
    (step cfg ws msg).sent.countP (isOpFrame 1) = 1 ∧
    (step cfg ws msg).ws.hbInterval = some q ∧
    (step cfg ws msg).ws.hbStarted = true ∧
    hbSendTime q 0 = 0 ∧
    (∀ k : ℕ, hbSendTime q (k + 1) = hbSendTime q k + q) ∧
    (∀ seq : Option J, hbTick false seq = [heartbeatFrame seq]) ∧
    (∀ (msg' op' d' : J), msg'.item "op" = .ok op' → msg'.item "d" = .ok d' →
      ((step cfg ws msg').outcome = Outcome.reconnect ↔ op' = .ji 7)) := by
  have hfirst : (step cfg ws msg).sent.countP (isOpFrame 1) = 1 ∧
      (step cfg ws msg).ws.hbInterval = some q ∧
      (step cfg ws msg).ws.hbStarted = true := by
    cases hsb : ws.hbStarted
    · obtain ⟨hsent, hq, hstart, _⟩ :=
        step_hello_fresh cfg ws msg d q hop hd hint hsb
      refine ⟨?_, hq, hstart⟩
      rw [hsent]
      simp [List.countP_cons, isOpFrame, heartbeatFrame, identifyFrame,
            J.get, List.lookup]
    · obtain ⟨hsent, hq, hstart, _⟩ :=
        step_hello_started cfg ws msg d q hop hd hint hsb
      refine ⟨?_, hq, hstart⟩
      rw [hsent]
      simp [List.countP_cons, isOpFrame, heartbeatFrame, J.get, List.lookup]
  refine ⟨hfirst.1, hfirst.2.1, hfirst.2.2, ?_, ?_, ?_, ?_⟩
  · simp [hbSendTime]
  · intro k
    unfold hbSendTime
    push_cast
    ring
  · intro seq
    rfl
  · intro msg' op' d' hop' hd'
    exact step_reconnect_iff cfg ws msg' op' d' hop' hd'

def c3_cfg : Config := ⟨"tok", 513, "linux"⟩

def c3_ws : WS := ⟨none, none, none, false, emptyState⟩

def c3_hello : J :=
  .jo [("op", .ji 10), ("d", .jo [("heartbeat_interval", .ji 41250)])]

/-- Selects timed sends that happen at or before time zero and carry a
heartbeat frame. -/
def immediateHeartbeat (p : Int × J) : Bool :=
  decide (p.1 ≤ 0) && isOpFrame 1 p.2

/-- Number of heartbeat frames on the wire before any positive amount of
time has passed after Hello, counting the event loop send and the first
three scheduler sends of a quiet connection (no acks ever arrive). -/
def c3_immediate_count : Nat :=
  ((helloTimeline c3_cfg c3_ws c3_hello 3).filter immediateHeartbeat).length

def c3_total_heartbeats : Nat :=
  ((helloTimeline c3_cfg c3_ws c3_hello 3).map Prod.snd |>.filter (isOpFrame 1)).length

def c3_outcome : Outcome := (step c3_cfg c3_ws c3_hello).outcome

/-- C3 counterexample: after Hello with interval 41250 ms, TWO heartbeat
frames are sent immediately (the event loop one and the scheduler thread
one at time zero), not exactly one; and on a connection that never
receives any ack-class frame the scheduler keeps sending (four heartbeats
on this timeline) while the loop iteration stays normal, so no missed ack
ever forces a reconnect. -/
theorem spec_C3_counterexample :
    c3_immediate_count = 2 ∧
    c3_total_heartbeats = 4 ∧
    c3_outcome = Outcome.normal := by
  refine ⟨?_, ?_, rfl⟩ <;> decide

theorem spec_C3_witness :
    (step c3_cfg c3_ws c3_hello).sent.countP (isOpFrame 1) = 1 ∧
    (step c3_cfg c3_ws c3_hello).ws.hbInterval = some 41250 ∧
    (step c3_cfg c3_ws c3_hello).ws.hbStarted = true :=
  have h := spec_C3_heartbeat_schedule c3_cfg c3_ws c3_hello
    (.jo [("heartbeat_interval", .ji 41250)]) 41250 rfl rfl rfl
  ⟨h.1, h.2.1, h.2.2.1⟩

def c6_state : StateS :=
  (handle_guild_create emptyState (.jo [("id", .ji 1), ("name", .js "g1")])).1

def c6_payload : J :=
  .jo [("guild_id", .ji 1),
       ("role", .jo [("id", .ji 5), ("name", .js "r"), ("position", .ji 1)])]

/-- Role 5 is not cached in server 1 of the fixture state. -/
def c6_role_absent : Bool :=
  match dlookup 1 c6_state.guilds with
  | some g => !(dmember 5 g.roles)
  | none => false

/-- C6: a role-update for a cached server whose role id is unknown reaches
guild._add_role(role) with role = None (instead of the payload sub-object),
so Role._from_data subscripts None and the handler raises TypeError; no
role is inserted, no snapshot is taken and nothing is dispatched. -/
theorem spec_C6_role_update_crashes :
    c6_role_absent = true ∧
    handle_guild_role_update c6_state c6_payload =
      (c6_state, [], some .typeError) :=
  ⟨rfl, rfl⟩

def c7_state : StateS :=
  (handle_guild_create emptyState
    (.jo [("id", .ji 1), ("name", .js "g"),
          ("roles", .ja [
            .jo [("id", .ji 1), ("name", .js "everyone"), ("position", .ji 0)],
            .jo [("id", .ji 5), ("name", .js "admin"), ("position", .ji 7)],
            .jo [("id", .ji 9), ("name", .js "mod"), ("position", .ji 2)]])])).1

def c7_guild : Guild := (dlookup 1 c7_state.guilds).getD default

/-- Is a role list weakly sorted by its position fields. -/
def positionSorted : List Role → Bool
  | [] => true
  | [_] => true
  | a :: b :: rest => decide (a.position ≤ b.position) && positionSorted (b :: rest)

def c7_listing : Except PyErr (List Role) := rolesProperty c7_guild

def c7_listing_produced : Bool := c7_listing.toOption.isSome

def c7_sorted : Bool :=
  match c7_listing with
  | .ok l => positionSorted l
  | .error _ => true

def c7_default_present : Bool := (default_role c7_guild).isSome

/-- C7 counterexample: server 1 holds roles with positions 0 (the default
role, first in the mapping), 7 and 2; the produced listing is admin (7),
mod (2), everyone — the default role is last but the list is NOT sorted by
position, refuting the sortedness half of the claim. -/
theorem spec_C7_counterexample :
    c7_default_present = true ∧ c7_listing_produced = true ∧
    c7_sorted = false :=
  ⟨rfl, rfl, rfl⟩

/-- C7 (amended): when the default role (id equal to the server id) is the
FIRST entry of the role mapping, the listing is the remaining roles in
mapping insertion order followed by the default role — it always ends with
the default role but is not sorted by position. (When the default role
exists elsewhere in the mapping, list.remove falls into the broken
DiscordModel equality and the property raises TypeError instead.) -/
theorem spec_C7_roles_listing (g : Guild) (dr : Role) (rest : Dict Role)
    (h : g.roles = (g.id, dr) :: rest) :
    rolesProperty g = .ok (rest.map Prod.snd ++ [dr]) ∧
    (rest.map Prod.snd ++ [dr]).getLast? = some dr := by
  have hdr : default_role g = some dr := by
    unfold default_role
    rw [h]
    simp [dlookup]
  unfold rolesProperty
  rw [hdr, h]
  simp [List.getLast?_concat]

def c7_dr : Role :=
  match c7_guild.roles with
  | (_, r) :: _ => r
  | [] => default

def c7_rest : Dict Role := c7_guild.roles.drop 1

theorem spec_C7_witness :
    rolesProperty c7_guild = .ok (c7_rest.map Prod.snd ++ [c7_dr]) ∧
    (c7_rest.map Prod.snd ++ [c7_dr]).getLast? = some c7_dr :=
  spec_C7_roles_listing c7_guild c7_dr c7_rest rfl

def c9_first : List ℕ := [1, 2, 3, 4, 5]

def c9_second : List ℕ := [6, 7, 0x00, 0x00, 0xff, 0xff]

/-- C9: the first binary frame carries no trailer, so receive_json returns
None — but the frame bytes are dropped on the floor, the pending buffer
stays empty instead of accumulating them; the second frame ends with the
trailer, and the decompression path evaluates the undefined bare name
inflator, raising NameError with the buffer still empty (the accumulated
stream is never decompressed). -/
theorem spec_C9_buffer_never_accumulates :
    receiveBytes [] c9_first = ([], none) ∧
    receiveBytes (receiveBytes [] c9_first).1 c9_second =
      ([], some (.nameError "inflator")) :=
  ⟨by decide, by decide⟩
